import Mathlib

/-!
Shallow embedding of `src/pytorch/model.py` (classes `BaseModel` and
`SRGANModel`): the data model, construction, the per-step training
algorithm `optimize_parameters`, the inference path `test`, checkpoint
saving and training-state resume.  Tensors are embedded as records with a
surrogate payload; the computation graphs built during a training step are
embedded as symbolic expression trees, so that the theorems can speak about
which expression the code computed and which effects (zero_grad, backward,
optimizer step, uniform draw) it performed, without re-implementing the
external tensor framework.
-/

set_option autoImplicit false

/-- A tensor: surrogate payload, device tag, leading (batch) dimension and
the autograd flag.  `data` stands in for the numeric contents. -/
structure Tensor where
  data : Int
  device : String
  size : Nat
  requiresGrad : Bool
deriving DecidableEq

/-- Moving a tensor to a device (`tensor.to(device)` in the source). -/
def Tensor.toDev (t : Tensor) (device : String) : Tensor :=
  { t with device := device }

/-- `tensor.cpu()` in the source: a copy on host memory. -/
def Tensor.cpu (t : Tensor) : Tensor :=
  { t with device := "cpu" }

/-- A network: label, named parameters, and the train/eval mode flag
(`nn.Module.training`). -/
structure Network where
  label : String
  params : List (String × Tensor)
  training : Bool
deriving DecidableEq

/-- The `self.random_pt` buffer of the WGAN-GP branch: its current leading
size after `resize_`, and the index of the last `uniform_()` draw taken
from the random stream (`none` before any draw). -/
structure RandomPt where
  size : Nat
  draw : Option Nat
deriving DecidableEq

/-- An Adam optimizer as built in `SRGANModel.__init__`: the parameters it
owns and its hyperparameters.  `sd` is the opaque identifier of the last
state dict loaded into it by `load_state_dict` (`none` if fresh).  The
second Adam beta is the constant `0.999` in the source and is not
recorded. -/
structure Optimizer where
  params : List (String × Tensor)
  lr : Int
  weight_decay : Int
  beta1 : Int
  sd : Option Nat
deriving DecidableEq

/-- A `MultiStepLR` scheduler: the optimizer it is attached to, its
milestones and decay factor, and the opaque identifier of the last state
dict loaded into it. -/
structure Scheduler where
  optimizer : Optimizer
  milestones : List Nat
  gamma : Int
  sd : Option Nat
deriving DecidableEq

/-- The `opt["train"]` sub-mapping: the hyperparameters `SRGANModel.__init__`
and `optimize_parameters` read.  Fields that the source guards with Python
truthiness tests are `Option`s (`none` models a null/absent entry).  The
misspelled key `gp_weigth` is kept as in the source. -/
structure TrainOpt where
  pixel_weight : Int
  pixel_criterion : String
  feature_weight : Int
  feature_criterion : String
  gan_type : String
  gan_weight : Int
  D_update_ratio : Option Nat
  D_init_iters : Option Nat
  gp_weigth : Int
  weight_decay_G : Option Int
  lr_G : Int
  beta1_G : Int
  weight_decay_D : Option Int
  lr_D : Int
  beta1_D : Int
  lr_scheme : String
  lr_steps : List Nat
  lr_gamma : Int
deriving DecidableEq

/-- The `opt["path"]` sub-mapping. -/
structure PathOpt where
  models : String
  training_state : String
  pretrain_model_G : Option String
  pretrain_model_D : Option String
deriving DecidableEq

/-- The configuration mapping `opt`. -/
structure Opt where
  gpu_ids : Option (List Nat)
  is_train : Bool
  train : TrainOpt
  path : PathOpt
deriving DecidableEq

/-- A batch as handed to `feed_data`: the `"LR"` and `"HR"` entries and the
optional `"ref"` entry. -/
structure BatchData where
  LR : Tensor
  HR : Tensor
  ref : Option Tensor
deriving DecidableEq

/-- Symbolic tensor expressions: the computation graphs that
`optimize_parameters` and `test` build.  `appG`/`appD`/`appF` are forward
passes through `netG`/`netD`/`netF`; `randomPt i` is the value of the
`random_pt` buffer after the `i`-th draw of the uniform stream; `withGrad`
records `interp.requires_grad = True`; `noGrad` records a forward pass run
under `torch.no_grad()`. -/
inductive TExpr where
  | ofTensor (t : Tensor)
  | appG (x : TExpr)
  | appD (x : TExpr)
  | appF (x : TExpr)
  | detach (x : TExpr)
  | noGrad (x : TExpr)
  | randomPt (draw : Nat)
  | one
  | sub (a b : TExpr)
  | mul (a b : TExpr)
  | add (a b : TExpr)
  | withGrad (x : TExpr)
deriving DecidableEq

/-- Symbolic loss expressions.  `crit kind pred target` is an application
of the configured `L1Loss`/`MSELoss` criterion (`kind` is `"l1"` or
`"l2"`); `gan pred real` an application of `cri_gan` with target
real/fake; `gp` an application of the gradient-penalty loss; `smul` a
Python `weight * loss`; `add` a Python `+`; `num` an integer literal
(the `l_g_total = 0` seed). -/
inductive Loss where
  | num (n : Int)
  | crit (kind : String) (pred target : TExpr)
  | gan (pred : TExpr) (real : Bool)
  | gp (interp critOut : TExpr)
  | smul (w : Int) (l : Loss)
  | add (a b : Loss)
deriving DecidableEq

/-- A value stored in `log_dict`: either `loss.item()` or
`torch.mean(tensor)`. -/
inductive LogVal where
  | item (l : Loss)
  | meanOf (t : TExpr)
deriving DecidableEq

/-- Observable side effects of a call, in program order. -/
inductive Effect where
  | zero_grad (which : String)
  | backward (which : String) (loss : Loss)
  | optStep (which : String)
  | uniformDraw (idx : Nat)
  | setMode (which : String) (training : Bool)
deriving DecidableEq

/-- A file written by `torch.save` of a network state dict. -/
structure SavedFile where
  path : String
  contents : List (String × Tensor)
deriving DecidableEq

/-- A resume state as read by `resume_training`: the optimizer and
scheduler state dicts are opaque identifiers. -/
structure ResumeState where
  epoch : Nat
  iter : Nat
  optimizers : List Nat
  schedulers : List Nat
deriving DecidableEq

def emptyNetwork : Network :=
  { label := "", params := [], training := false }

def defaultTrainOpt : TrainOpt :=
  { pixel_weight := 0, pixel_criterion := "l1", feature_weight := 0,
    feature_criterion := "l1", gan_type := "vanilla", gan_weight := 0,
    D_update_ratio := none, D_init_iters := none, gp_weigth := 0,
    weight_decay_G := none, lr_G := 0, beta1_G := 0, weight_decay_D := none,
    lr_D := 0, beta1_D := 0, lr_scheme := "MultiStepLR", lr_steps := [],
    lr_gamma := 0 }

def defaultOpt : Opt :=
  { gpu_ids := none, is_train := false, train := defaultTrainOpt,
    path := { models := "", training_state := "", pretrain_model_G := none,
              pretrain_model_D := none } }

/-- The full state of an `SRGANModel` object.  Attributes that the source
creates only conditionally (training-only attributes, `netD`, `netF`,
`random_pt`, `log_dict`, the fed batch tensors, `fake_H`) are `Option`s:
`none` means the attribute is absent (or holds Python `None`).  `rng` is
the position in the stream of uniform random draws consumed by
`random_pt.uniform_()`. -/
structure SRGANState where
  opt : Opt := defaultOpt
  device : String := "cpu"
  is_train : Bool := false
  netG : Network := emptyNetwork
  netD : Option Network := none
  netF : Option Network := none
  cri_pix : Option String := none
  l_pix_w : Int := 0
  cri_fea : Option String := none
  l_fea_w : Int := 0
  cri_gan : Option String := none
  l_gan_w : Int := 0
  D_update_ratio : Nat := 1
  D_init_iters : Nat := 0
  random_pt : Option RandomPt := none
  cri_gp : Bool := false
  l_gp_w : Int := 0
  optimizer_G : Option Optimizer := none
  optimizer_D : Option Optimizer := none
  optimizers : List Optimizer := []
  schedulers : List Scheduler := []
  log_dict : Option (List (String × LogVal)) := none
  var_L : Option Tensor := none
  var_H : Option Tensor := none
  var_ref : Option Tensor := none
  fake_H : Option TExpr := none
  rng : Nat := 0
deriving DecidableEq

def junkState : SRGANState := {}

/-- Python `x if x else d` on an optional integer-valued config entry:
`None` and `0` are falsy. -/
def pyFalsyNat (o : Option Nat) (d : Nat) : Nat :=
  match o with
  | none => d
  | some n => if n = 0 then d else n

/-- Python `x if x else d` on an optional integer-valued config entry. -/
def pyFalsyInt (o : Option Int) (d : Int) : Int :=
  match o with
  | none => d
  | some n => if n = 0 then d else n

/-- The pixel/feature loss configuration blocks of `SRGANModel.__init__`
(lines 110-138): when the weight is positive the criterion string must be
`"l1"` or `"l2"`, anything else raises `NotImplementedError`; when the
weight is not positive the criterion is set to `None` and the string is
never inspected. -/
def configLoss (weight : Int) (ltype : String) : Except String (Option String × Int) :=
  if weight > 0 then
    if ltype = "l1" then Except.ok (some "l1", weight)
    else if ltype = "l2" then Except.ok (some "l2", weight)
    else Except.error ("Loss type [" ++ ltype ++ "] not recognized.")
  else Except.ok (none, 0)

/-- `SRGANModel.__init__` (together with `BaseModel.__init__` and
`SRGANModel.load`).  The externally defined network factories
(`networks.define_G/D/F`) are passed in as the already-built networks
`gNet`, `dNet`, `fNet`; `loadFile` stands for deserializing a pretrained
checkpoint file.  Raised exceptions are modelled as `Except.error`. -/
def SRGANModel.init (opt : Opt) (gNet dNet fNet : Network)
    (loadFile : String → List (String × Tensor)) : Except String SRGANState :=
  let device := if opt.gpu_ids.isSome then "cuda" else "cpu"
  let is_train := opt.is_train
  let train_opt := opt.train
  let netG1 := if is_train then { gNet with training := true } else gNet
  let netD1 : Option Network :=
    if is_train then some { dNet with training := true } else none
  let netG2 :=
    match opt.path.pretrain_model_G with
    | some p => { netG1 with params := loadFile p }
    | none => netG1
  let netD2 :=
    match netD1, opt.path.pretrain_model_D with
    | some d, some p => if opt.is_train then some { d with params := loadFile p } else some d
    | x, _ => x
  if is_train then
    match configLoss train_opt.pixel_weight train_opt.pixel_criterion with
    | Except.error e => Except.error e
    | Except.ok (cri_pix, l_pix_w) =>
      match configLoss train_opt.feature_weight train_opt.feature_criterion with
      | Except.error e => Except.error e
      | Except.ok (cri_fea, l_fea_w) =>
        let netF := if cri_fea.isSome then some fNet else none
        let dur := pyFalsyNat train_opt.D_update_ratio 1
        let dii := pyFalsyNat train_opt.D_init_iters 0
        let wgan := train_opt.gan_type = "wgan-gp"
        let random_pt : Option RandomPt :=
          if wgan then some { size := 1, draw := none } else none
        let l_gp_w := if wgan then train_opt.gp_weigth else 0
        let wd_G := pyFalsyInt train_opt.weight_decay_G 0
        let optim_params := netG2.params.filter (fun kv => kv.2.requiresGrad)
        let optimizer_G : Optimizer :=
          { params := optim_params, lr := train_opt.lr_G, weight_decay := wd_G,
            beta1 := train_opt.beta1_G, sd := none }
        let wd_D := pyFalsyInt train_opt.weight_decay_D 0
        let dparams := match netD2 with | some d => d.params | none => []
        let optimizer_D : Optimizer :=
          { params := dparams, lr := train_opt.lr_D, weight_decay := wd_D,
            beta1 := train_opt.beta1_D, sd := none }
        let optimizers := [optimizer_G, optimizer_D]
        if train_opt.lr_scheme = "MultiStepLR" then
          let schedulers := optimizers.map (fun o =>
            ({ optimizer := o, milestones := train_opt.lr_steps,
               gamma := train_opt.lr_gamma, sd := none } : Scheduler))
          Except.ok
            { opt := opt, device := device, is_train := is_train,
              netG := netG2, netD := netD2, netF := netF,
              cri_pix := cri_pix, l_pix_w := l_pix_w,
              cri_fea := cri_fea, l_fea_w := l_fea_w,
              cri_gan := some train_opt.gan_type, l_gan_w := train_opt.gan_weight,
              D_update_ratio := dur, D_init_iters := dii,
              random_pt := random_pt, cri_gp := wgan, l_gp_w := l_gp_w,
              optimizer_G := some optimizer_G, optimizer_D := some optimizer_D,
              optimizers := optimizers, schedulers := schedulers,
              log_dict := some [] }
        else
          Except.error "MultiStepLR learning rate scheme is enough."
  else
    Except.ok { opt := opt, device := device, is_train := is_train,
                netG := netG2, netD := netD2 }

/-- `SRGANModel.feed_data` (lines 192-198): move `"LR"` to the device;
when `need_HR`, also move `"HR"` and take the reference image from the
`"ref"` entry when present, else from `"HR"`. -/
def SRGANModel.feed_data (st : SRGANState) (data : BatchData) (need_HR : Bool) : SRGANState :=
  let st1 := { st with var_L := some (data.LR.toDev st.device) }
  if need_HR then
    let input_ref := match data.ref with | some r => r | none => data.HR
    { st1 with
        var_H := some (data.HR.toDev st.device)
        var_ref := some (input_ref.toDev st.device) }
  else st1

/-- Python ordered-dict assignment `d[k] = v`: overwrite in place if the
key is present, else append at the end. -/
def pyDictAssign (d : List (String × LogVal)) (k : String) (v : LogVal) :
    List (String × LogVal) :=
  match d with
  | [] => [(k, v)]
  | (k1, v1) :: rest =>
    if k1 = k then (k1, v) :: rest else (k1, v1) :: pyDictAssign rest k v

/-- The log-writing block at the end of `optimize_parameters`
(lines 247-259).  The generator metrics are passed as `Option`s that are
`some` exactly when the corresponding source-level guard
(`step` condition, `self.cri_pix`, `self.cri_fea`, WGAN-GP) held. -/
def SRGANModel.writeLog (log : List (String × LogVal))
    (pixL feaL ganL : Option Loss) (l_d_real l_d_fake : Loss) (gpL : Option Loss)
    (pred_d_real pred_d_fake : TExpr) : List (String × LogVal) :=
  let log := match pixL with
    | some p => pyDictAssign log ("l_g_pix") (LogVal.item p)
    | none => log
  let log := match feaL with
    | some f => pyDictAssign log ("l_g_fea") (LogVal.item f)
    | none => log
  let log := match ganL with
    | some g => pyDictAssign log ("l_g_gan") (LogVal.item g)
    | none => log
  let log := pyDictAssign log ("l_d_real") (LogVal.item l_d_real)
  let log := pyDictAssign log ("l_d_fake") (LogVal.item l_d_fake)
  let log := match gpL with
    | some gp => pyDictAssign log ("l_d_gp") (LogVal.item gp)
    | none => log
  let log := pyDictAssign log ("D_real") (LogVal.meanOf (TExpr.detach pred_d_real))
  pyDictAssign log ("D_fake") (LogVal.meanOf (TExpr.detach pred_d_fake))

/-- The names the log-writing block of `optimize_parameters` assigns during
a call at `step` on a model in state `st`. -/
def SRGANModel.metrics_logged (st : SRGANState) (step : Nat) : List String :=
  (if step % st.D_update_ratio == 0 && decide (st.D_init_iters < step) then
     (if st.cri_pix.isSome then ["l_g_pix"] else []) ++
     (if st.cri_fea.isSome then ["l_g_fea"] else []) ++ ["l_g_gan"]
   else []) ++ ["l_d_real", "l_d_fake"] ++
  (if st.opt.train.gan_type == "wgan-gp" then ["l_d_gp"] else []) ++
  ["D_real", "D_fake"]

/-- `SRGANModel.optimize_parameters` (lines 200-259).  The parameter
updates performed by `optimizer_G.step()` / `optimizer_D.step()` are the
external framework's Adam semantics and are passed in as `sgG` / `sgD`.
Accessing an attribute the object does not have is an `Except.error`
(Python `AttributeError`).  Returns the new object state together with the
trace of effects the call performed, in program order. -/
def SRGANModel.optimize_parameters (st : SRGANState) (step : Nat)
    (sgG sgD : Network → Network) : Except String (SRGANState × List Effect) :=
  match st.optimizer_G with
  | none => Except.error ("AttributeError: optimizer_G")
  | some _optG =>
  match st.var_L with
  | none => Except.error ("AttributeError: var_L")
  | some varL =>
  match st.netD with
  | none => Except.error ("AttributeError: netD")
  | some netD0 =>
  match st.cri_gan with
  | none => Except.error ("AttributeError: cri_gan")
  | some _ganType =>
  match st.optimizer_D with
  | none => Except.error ("AttributeError: optimizer_D")
  | some _optD =>
  match st.var_ref with
  | none => Except.error ("AttributeError: var_ref")
  | some varRef =>
  match st.log_dict with
  | none => Except.error ("AttributeError: log_dict")
  | some log0 =>
  let fake_H := TExpr.appG (TExpr.ofTensor varL)
  let genCond := step % st.D_update_ratio == 0 && decide (st.D_init_iters < step)
  let genRes : Except String (Option Loss × Option Loss × Option Loss × Network × List Effect) :=
    if genCond then
      let pix : Except String (Option Loss) :=
        match st.cri_pix with
        | some kind =>
          match st.var_H with
          | some varH =>
            Except.ok (some (Loss.smul st.l_pix_w
              (Loss.crit kind fake_H (TExpr.ofTensor varH))))
          | none => Except.error ("AttributeError: var_H")
        | none => Except.ok none
      let fea : Except String (Option Loss) :=
        match st.cri_fea with
        | some kind =>
          match st.var_H with
          | some varH =>
            let real_fea := TExpr.detach (TExpr.appF (TExpr.ofTensor varH))
            let fake_fea := TExpr.appF fake_H
            Except.ok (some (Loss.smul st.l_fea_w (Loss.crit kind fake_fea real_fea)))
          | none => Except.error ("AttributeError: var_H")
        | none => Except.ok none
      match pix, fea with
      | Except.ok pixL, Except.ok feaL =>
        let pred_g_fake := TExpr.appD fake_H
        let l_g_gan := Loss.smul st.l_gan_w (Loss.gan pred_g_fake true)
        let t1 := match pixL with | some p => Loss.add (Loss.num 0) p | none => Loss.num 0
        let t2 := match feaL with | some f => Loss.add t1 f | none => t1
        let l_g_total := Loss.add t2 l_g_gan
        Except.ok (pixL, feaL, some l_g_gan, sgG st.netG,
          [Effect.backward ("G") l_g_total, Effect.optStep ("G")])
      | Except.error e, _ => Except.error e
      | _, Except.error e => Except.error e
    else Except.ok (none, none, none, st.netG, [])
  match genRes with
  | Except.error e => Except.error e
  | Except.ok (pixL, feaL, ganL, netG1, genTr) =>
    let pred_d_real := TExpr.appD (TExpr.ofTensor varRef)
    let l_d_real := Loss.gan pred_d_real true
    let pred_d_fake := TExpr.appD (TExpr.detach fake_H)
    let l_d_fake := Loss.gan pred_d_fake false
    let base := Loss.add l_d_real l_d_fake
    if st.opt.train.gan_type == "wgan-gp" then
      match st.random_pt with
      | none => Except.error ("AttributeError: random_pt")
      | some rp0 =>
        let batch_size := varRef.size
        let rp1 := if rp0.size != batch_size then { rp0 with size := batch_size } else rp0
        let drawIdx := st.rng
        let rp2 := { rp1 with draw := some drawIdx }
        let interp := TExpr.withGrad (TExpr.add
          (TExpr.mul (TExpr.randomPt drawIdx) (TExpr.detach fake_H))
          (TExpr.mul (TExpr.sub TExpr.one (TExpr.randomPt drawIdx))
            (TExpr.ofTensor varRef)))
        let interp_crit := TExpr.appD interp
        let l_d_gp := Loss.smul st.l_gp_w (Loss.gp interp interp_crit)
        let l_d_total := Loss.add base l_d_gp
        let tr := [Effect.zero_grad ("G")] ++ genTr ++
          [Effect.zero_grad ("D"), Effect.uniformDraw drawIdx,
           Effect.backward ("D") l_d_total, Effect.optStep ("D")]
        let log := SRGANModel.writeLog log0 pixL feaL ganL l_d_real l_d_fake
          (some l_d_gp) pred_d_real pred_d_fake
        Except.ok ({ st with
          netG := netG1
          netD := some (sgD netD0)
          fake_H := some fake_H
          random_pt := some rp2
          rng := st.rng + 1
          log_dict := some log }, tr)
    else
      let l_d_total := base
      let tr := [Effect.zero_grad ("G")] ++ genTr ++
        [Effect.zero_grad ("D"), Effect.backward ("D") l_d_total, Effect.optStep ("D")]
      let log := SRGANModel.writeLog log0 pixL feaL ganL l_d_real l_d_fake
        none pred_d_real pred_d_fake
      Except.ok ({ st with
        netG := netG1
        netD := some (sgD netD0)
        fake_H := some fake_H
        log_dict := some log }, tr)

/-- `SRGANModel.test` (lines 261-265): switch `netG` to evaluation mode,
run the forward pass on the stored LR input under `torch.no_grad()`,
store the result, switch `netG` back to training mode. -/
def SRGANModel.test (st : SRGANState) : Except String (SRGANState × List Effect) :=
  match st.var_L with
  | none => Except.error ("AttributeError: var_L")
  | some varL =>
    let netG_eval := { st.netG with training := false }
    let fake_H := TExpr.noGrad (TExpr.appG (TExpr.ofTensor varL))
    let netG_train := { netG_eval with training := true }
    Except.ok ({ st with netG := netG_train, fake_H := some fake_H },
      [Effect.setMode ("G") false, Effect.setMode ("G") true])

/-- `SRGANModel.get_current_log` (lines 267-268). -/
def SRGANModel.get_current_log (st : SRGANState) : Option (List (String × LogVal)) :=
  st.log_dict

/-- `BaseModel.save_network` (lines 57-65): build the file name from the
iteration and the network label, copy every state-dict entry to host
memory, and serialize.  Returns the written file together with the
(unmodified) network and model state, mirroring that the source only reads
them. -/
def BaseModel.save_network (st : SRGANState) (network : Network)
    (network_label : String) (iter_step : Nat) : SavedFile × Network × SRGANState :=
  let save_filename := toString iter_step ++ "_" ++ network_label ++ ".pth"
  let save_path := st.opt.path.models ++ "/" ++ save_filename
  let state_dict := network.params
  let state_dict := state_dict.map (fun kv => (kv.1, kv.2.cpu))
  ({ path := save_path, contents := state_dict }, network, st)

/-- `SRGANModel.save` (lines 331-333): save the generator, then the
discriminator.  On a model that has no `netD` attribute the second save
raises `AttributeError`. -/
def SRGANModel.save (st : SRGANState) (iter_step : Nat) :
    Except String (SavedFile × SavedFile) :=
  let fG := (BaseModel.save_network st st.netG ("G") iter_step).1
  match st.netD with
  | none => Except.error ("AttributeError: netD")
  | some d =>
    let fD := (BaseModel.save_network st d ("D") iter_step).1
    Except.ok (fG, fD)

/-- `load_state_dict` on an optimizer. -/
def Optimizer.load_state_dict (o : Optimizer) (s : Nat) : Optimizer :=
  { o with sd := some s }

/-- `load_state_dict` on a scheduler. -/
def Scheduler.load_state_dict (s : Scheduler) (d : Nat) : Scheduler :=
  { s with sd := some d }

/-- `BaseModel.resume_training` (lines 82-94): assert that the optimizer
and scheduler state lists have the model's own lengths (a failed `assert`
is an `Except.error`), then load state index by index.  Since the Python
objects in `self.optimizers` are the same objects as `self.optimizer_G` /
`self.optimizer_D`, those aliases are refreshed from the loaded list. -/
def BaseModel.resume_training (st : SRGANState) (resume_state : ResumeState) :
    Except String SRGANState :=
  let resume_optimizers := resume_state.optimizers
  let resume_schedulers := resume_state.schedulers
  if resume_optimizers.length != st.optimizers.length then
    Except.error ("AssertionError: Wrong lengths of optimizers")
  else if resume_schedulers.length != st.schedulers.length then
    Except.error ("AssertionError: Wrong lengths of schedulers")
  else
    let newOpts := List.zipWith Optimizer.load_state_dict st.optimizers resume_optimizers
    let newScheds := List.zipWith Scheduler.load_state_dict st.schedulers resume_schedulers
    Except.ok { st with
      optimizers := newOpts
      schedulers := newScheds
      optimizer_G := newOpts.get? 0
      optimizer_D := newOpts.get? 1 }

/-! Concrete fixtures used by the witnesses and counterexamples. -/

def tLR : Tensor := { data := 1, device := "disk", size := 4, requiresGrad := false }

def tHR : Tensor := { data := 2, device := "disk", size := 4, requiresGrad := false }

def wG : Tensor := { data := 10, device := "cuda", size := 1, requiresGrad := true }

def wD : Tensor := { data := 20, device := "cuda", size := 1, requiresGrad := true }

def gNetC : Network := { label := "G", params := [("w0", wG)], training := false }

def dNetC : Network := { label := "D", params := [("d0", wD)], training := false }

def fNetC : Network := { label := "F", params := [], training := false }

def loadNone : String → List (String × Tensor) := fun _ => []

def pathC : PathOpt :=
  { models := "mdl", training_state := "ts", pretrain_model_G := none,
    pretrain_model_D := none }

def batchC : BatchData := { LR := tLR, HR := tHR, ref := none }

def exS (e : Except String SRGANState) : SRGANState :=
  match e with
  | Except.ok s => s
  | Except.error _ => junkState

def exP (e : Except String (SRGANState × List Effect)) : SRGANState × List Effect :=
  match e with
  | Except.ok p => p
  | Except.error _ => (junkState, [])

/-- Training configuration with L1 pixel loss, no feature loss, vanilla
GAN, generator updated every second step after no warm-up. -/
def optC1 : Opt :=
  { gpu_ids := none, is_train := true, path := pathC,
    train := { defaultTrainOpt with
      pixel_weight := 1
      D_update_ratio := some 2
      gan_weight := 1 } }

def stC1a : SRGANState := exS (SRGANModel.init optC1 gNetC dNetC fNetC loadNone)

def stC1b : SRGANState := SRGANModel.feed_data stC1a batchC true

def stC1c : SRGANState := (exP (SRGANModel.optimize_parameters stC1b 2 id id)).1

def stC1d : SRGANState := (exP (SRGANModel.optimize_parameters stC1c 3 id id)).1

/-- Ordered-dict assignment keys: after `d[k] = v` a key is present iff it
is `k` or was already present. -/
theorem pyDictAssign_keys (d : List (String × LogVal)) (k : String) (v : LogVal)
    (q : String) :
    q ∈ (pyDictAssign d k v).map Prod.fst ↔ q = k ∨ q ∈ d.map Prod.fst := by
  induction d with
  | nil => simp [pyDictAssign]
  | cons a rest ih =>
    obtain ⟨k1, v1⟩ := a
    by_cases h : k1 = k
    · subst h
      simp [pyDictAssign]
    · simp [pyDictAssign, h, ih]
      tauto

/-- C1 (counterexample): on a configured training model, run
`optimize_parameters` at step 2 (the generator update runs and logs
`l_g_gan`), then at step 3 (the generator update is skipped).  After the
second call `get_current_log` still contains the key `l_g_gan`, although
`l_g_gan` is not among the metrics the second call computed — so the log
is not rebuilt each iteration. -/
theorem C1_log_not_rebuilt_counterexample :
    (((SRGANModel.get_current_log stC1d).getD []).map Prod.fst).contains ("l_g_gan") = true ∧
    (SRGANModel.metrics_logged stC1c 3).contains ("l_g_gan") = false := by
  constructor
  · rfl
  · rfl

set_option maxHeartbeats 4000000 in
/-- C1 (amended): after a call to `optimize_parameters(step)` on a model
whose training attributes and fed batch are present, the log returned by
`get_current_log` contains an entry for every metric computed during that
call, and every key that was present before the call is still present —
stale entries of earlier iterations (such as a generator-loss entry from a
step in which the generator update was skipped) are retained, not
cleared. -/
theorem C1_log_persists (st : SRGANState) (step : Nat) (sgG sgD : Network → Network)
    (st2 : SRGANState) (tr : List Effect)
    (og od : Optimizer) (varL varH varRef : Tensor) (nd : Network) (gt : String)
    (lg : List (String × LogVal))
    (hOG : st.optimizer_G = some og) (hOD : st.optimizer_D = some od)
    (hVL : st.var_L = some varL) (hVH : st.var_H = some varH)
    (hVR : st.var_ref = some varRef) (hND : st.netD = some nd)
    (hCG : st.cri_gan = some gt) (hLG : st.log_dict = some lg)
    (hrun : SRGANModel.optimize_parameters st step sgG sgD = Except.ok (st2, tr)) :
    (∀ q ∈ SRGANModel.metrics_logged st step,
        q ∈ (st2.log_dict.getD []).map Prod.fst) ∧
    (∀ q ∈ lg.map Prod.fst, q ∈ (st2.log_dict.getD []).map Prod.fst) ∧
    SRGANModel.get_current_log st2 = st2.log_dict := by
  simp only [SRGANModel.optimize_parameters, hOG, hOD, hVL, hVH, hVR, hND, hCG, hLG]
    at hrun
  by_cases hgc : (step % st.D_update_ratio == 0 && decide (st.D_init_iters < step)) = true <;>
    simp only [hgc, Bool.false_eq_true, eq_self_iff_true, if_true, if_false] at hrun
  all_goals (try (cases hcp : st.cri_pix <;> simp only [hcp] at hrun))
  all_goals (try (cases hcf : st.cri_fea <;> simp only [hcf] at hrun))
  all_goals (by_cases hgt : (st.opt.train.gan_type == "wgan-gp") = true <;>
    simp only [hgt, Bool.false_eq_true, eq_self_iff_true, if_true, if_false] at hrun)
  all_goals (try (cases hrp : st.random_pt <;> simp only [hrp] at hrun))
  all_goals (try (exact Except.noConfusion hrun))
  all_goals (
    injection hrun with h0
    injection h0 with h1 h2
    subst h1
    subst h2
    refine ⟨?_, ?_, rfl⟩ <;>
      (intro q hq
       try (first
         | simp [SRGANModel.metrics_logged, hgc, hcp, hcf, hgt] at hq
         | simp [SRGANModel.metrics_logged, hgc, hgt] at hq)
       simp only [SRGANModel.get_current_log]
       try dsimp only
       simp only [SRGANModel.writeLog, Option.getD_some, pyDictAssign_keys]
       try simp at hq ⊢
       tauto))

def resC1 : SRGANState × List Effect :=
  exP (SRGANModel.optimize_parameters stC1b 2 id id)

def ogC1 : Optimizer :=
  { params := [("w0", wG)], lr := 0, weight_decay := 0, beta1 := 0, sd := none }

def odC1 : Optimizer :=
  { params := [("d0", wD)], lr := 0, weight_decay := 0, beta1 := 0, sd := none }

def ndC1 : Network := { label := "D", params := [("d0", wD)], training := true }

def varLC : Tensor := { data := 1, device := "cpu", size := 4, requiresGrad := false }

def varHC : Tensor := { data := 2, device := "cpu", size := 4, requiresGrad := false }

/-- C1 witness: the amended statement instantiated on the concrete
training model at step 2. -/
theorem C1_log_persists_witness :
    (∀ q ∈ SRGANModel.metrics_logged stC1b 2,
        q ∈ ((resC1.1).log_dict.getD []).map Prod.fst) ∧
    (∀ q ∈ ([] : List (String × LogVal)).map Prod.fst,
        q ∈ ((resC1.1).log_dict.getD []).map Prod.fst) ∧
    SRGANModel.get_current_log resC1.1 = (resC1.1).log_dict :=
  C1_log_persists stC1b 2 id id resC1.1 resC1.2 ogC1 odC1 varLC varHC varHC ndC1
    ("vanilla") [] rfl rfl rfl rfl rfl rfl rfl rfl rfl

set_option maxHeartbeats 1000000 in
/-- C2: `optimize_parameters(step)` performs the generator update —
backpropagating the sum of weighted pixel loss, feature loss against a
detached real-feature target, and adversarial loss, and stepping the
generator optimizer — if and only if `step` is a multiple of the
configured `D_update_ratio` and exceeds `D_init_iters`; otherwise the
generator network is left unchanged and no generator backward or step is
performed. -/
theorem C2_generator_update_gate (st : SRGANState) (step : Nat)
    (sgG sgD : Network → Network) (st2 : SRGANState) (tr : List Effect)
    (og od : Optimizer) (varL varH varRef : Tensor) (nd : Network) (gt : String)
    (lg : List (String × LogVal)) (pk fk : String)
    (hOG : st.optimizer_G = some og) (hOD : st.optimizer_D = some od)
    (hVL : st.var_L = some varL) (hVH : st.var_H = some varH)
    (hVR : st.var_ref = some varRef) (hND : st.netD = some nd)
    (hCG : st.cri_gan = some gt) (hLG : st.log_dict = some lg)
    (hcp : st.cri_pix = some pk) (hcf : st.cri_fea = some fk)
    (hrun : SRGANModel.optimize_parameters st step sgG sgD = Except.ok (st2, tr)) :
    ((step % st.D_update_ratio = 0 ∧ st.D_init_iters < step) →
        Effect.backward ("G") (Loss.add (Loss.add (Loss.add (Loss.num 0)
            (Loss.smul st.l_pix_w (Loss.crit pk (TExpr.appG (TExpr.ofTensor varL))
              (TExpr.ofTensor varH))))
            (Loss.smul st.l_fea_w (Loss.crit fk
              (TExpr.appF (TExpr.appG (TExpr.ofTensor varL)))
              (TExpr.detach (TExpr.appF (TExpr.ofTensor varH))))))
            (Loss.smul st.l_gan_w
              (Loss.gan (TExpr.appD (TExpr.appG (TExpr.ofTensor varL))) true))) ∈ tr ∧
        Effect.optStep ("G") ∈ tr ∧ st2.netG = sgG st.netG) ∧
    (¬(step % st.D_update_ratio = 0 ∧ st.D_init_iters < step) →
        (∀ l : Loss, Effect.backward ("G") l ∉ tr) ∧
        Effect.optStep ("G") ∉ tr ∧ st2.netG = st.netG) := by
  simp only [SRGANModel.optimize_parameters, hOG, hOD, hVL, hVH, hVR, hND, hCG, hLG,
    hcp, hcf] at hrun
  by_cases hgc : (step % st.D_update_ratio == 0 && decide (st.D_init_iters < step)) = true <;>
    simp only [hgc, Bool.false_eq_true, eq_self_iff_true, if_true, if_false] at hrun
  all_goals (by_cases hgt : (st.opt.train.gan_type == "wgan-gp") = true <;>
    simp only [hgt, Bool.false_eq_true, eq_self_iff_true, if_true, if_false] at hrun)
  all_goals (try (cases hrp : st.random_pt <;> simp only [hrp] at hrun))
  all_goals (try (exact Except.noConfusion hrun))
  all_goals (
    injection hrun with h0
    injection h0 with h1 h2
    subst h1
    subst h2
    refine ⟨fun hcond => ?_, fun hcond => ?_⟩ <;>
      first
        | (simp only [Bool.and_eq_true, beq_iff_eq, decide_eq_true_eq] at hgc
           first
             | exact absurd hgc hcond
             | exact absurd hcond hgc)
        | (refine ⟨?_, ?_, rfl⟩ <;> simp)
        | (refine ⟨fun l => ?_, ?_, rfl⟩ <;> simp))

/-- Training configuration with both pixel and feature L1 losses, vanilla
GAN, generator updated every second step. -/
def optC2 : Opt :=
  { gpu_ids := none, is_train := true, path := pathC,
    train := { defaultTrainOpt with
      pixel_weight := 1
      feature_weight := 1
      D_update_ratio := some 2
      gan_weight := 1 } }

def stC2a : SRGANState := exS (SRGANModel.init optC2 gNetC dNetC fNetC loadNone)

def stC2b : SRGANState := SRGANModel.feed_data stC2a batchC true

def resC2 : SRGANState × List Effect :=
  exP (SRGANModel.optimize_parameters stC2b 2 id id)

/-- C2 witness: the statement instantiated on a concrete training model at
step 2 (where the generator update runs). -/
theorem C2_generator_update_gate_witness :
    ((2 % stC2b.D_update_ratio = 0 ∧ stC2b.D_init_iters < 2) →
        Effect.backward ("G") (Loss.add (Loss.add (Loss.add (Loss.num 0)
            (Loss.smul stC2b.l_pix_w (Loss.crit ("l1") (TExpr.appG (TExpr.ofTensor varLC))
              (TExpr.ofTensor varHC))))
            (Loss.smul stC2b.l_fea_w (Loss.crit ("l1")
              (TExpr.appF (TExpr.appG (TExpr.ofTensor varLC)))
              (TExpr.detach (TExpr.appF (TExpr.ofTensor varHC))))))
            (Loss.smul stC2b.l_gan_w
              (Loss.gan (TExpr.appD (TExpr.appG (TExpr.ofTensor varLC))) true))) ∈ resC2.2 ∧
        Effect.optStep ("G") ∈ resC2.2 ∧ (resC2.1).netG = id stC2b.netG) ∧
    (¬(2 % stC2b.D_update_ratio = 0 ∧ stC2b.D_init_iters < 2) →
        (∀ l : Loss, Effect.backward ("G") l ∉ resC2.2) ∧
        Effect.optStep ("G") ∉ resC2.2 ∧ (resC2.1).netG = stC2b.netG) :=
  C2_generator_update_gate stC2b 2 id id resC2.1 resC2.2 ogC1 odC1 varLC varHC varHC
    ndC1 ("vanilla") [] ("l1") ("l1") rfl rfl rfl rfl rfl rfl rfl rfl rfl rfl rfl

/-- `random_pt.resize_(batch_size, 1, 1, 1)` guarded by the size test
always leaves the buffer with the batch size. -/
theorem randomPt_resize_size (r : RandomPt) (n : Nat) :
    (if (r.size != n) = true then ({ size := n, draw := r.draw } : RandomPt) else r).size
      = n := by
  by_cases h : (r.size != n) = true
  · simp [h]
  · simp only [h, if_false]
    simpa using h

set_option maxHeartbeats 1000000 in
/-- C3: for every step, `optimize_parameters(step)` performs the
discriminator update: it backpropagates the sum of the real and fake
adversarial losses and steps the discriminator optimizer; when the
configured GAN type is `wgan-gp` it additionally draws a fresh uniform
random coefficient (advancing the random stream), interpolates between the
detached fake sample and the real reference, and adds the weighted
gradient-penalty term to the backpropagated discriminator loss. -/
theorem C3_discriminator_update_always (st : SRGANState) (step : Nat)
    (sgG sgD : Network → Network) (st2 : SRGANState) (tr : List Effect)
    (og od : Optimizer) (varL varH varRef : Tensor) (nd : Network) (gt : String)
    (lg : List (String × LogVal)) (pk fk : String)
    (hOG : st.optimizer_G = some og) (hOD : st.optimizer_D = some od)
    (hVL : st.var_L = some varL) (hVH : st.var_H = some varH)
    (hVR : st.var_ref = some varRef) (hND : st.netD = some nd)
    (hCG : st.cri_gan = some gt) (hLG : st.log_dict = some lg)
    (hcp : st.cri_pix = some pk) (hcf : st.cri_fea = some fk)
    (hrun : SRGANModel.optimize_parameters st step sgG sgD = Except.ok (st2, tr)) :
    Effect.optStep ("D") ∈ tr ∧
    st2.netD = some (sgD nd) ∧
    ((st.opt.train.gan_type == "wgan-gp") = false →
        Effect.backward ("D")
          (Loss.add (Loss.gan (TExpr.appD (TExpr.ofTensor varRef)) true)
            (Loss.gan (TExpr.appD (TExpr.detach (TExpr.appG (TExpr.ofTensor varL))))
              false)) ∈ tr) ∧
    ((st.opt.train.gan_type == "wgan-gp") = true →
        ∀ rp2, st.random_pt = some rp2 →
        Effect.backward ("D")
          (Loss.add
            (Loss.add (Loss.gan (TExpr.appD (TExpr.ofTensor varRef)) true)
              (Loss.gan (TExpr.appD (TExpr.detach (TExpr.appG (TExpr.ofTensor varL))))
                false))
            (Loss.smul st.l_gp_w (Loss.gp
              (TExpr.withGrad (TExpr.add
                (TExpr.mul (TExpr.randomPt st.rng)
                  (TExpr.detach (TExpr.appG (TExpr.ofTensor varL))))
                (TExpr.mul (TExpr.sub TExpr.one (TExpr.randomPt st.rng))
                  (TExpr.ofTensor varRef))))
              (TExpr.appD (TExpr.withGrad (TExpr.add
                (TExpr.mul (TExpr.randomPt st.rng)
                  (TExpr.detach (TExpr.appG (TExpr.ofTensor varL))))
                (TExpr.mul (TExpr.sub TExpr.one (TExpr.randomPt st.rng))
                  (TExpr.ofTensor varRef)))))))) ∈ tr ∧
        Effect.uniformDraw st.rng ∈ tr ∧
        st2.rng = st.rng + 1 ∧
        st2.random_pt = some { size := varRef.size, draw := some st.rng }) := by
  simp only [SRGANModel.optimize_parameters, hOG, hOD, hVL, hVH, hVR, hND, hCG, hLG,
    hcp, hcf] at hrun
  by_cases hgc : (step % st.D_update_ratio == 0 && decide (st.D_init_iters < step)) = true <;>
    simp only [hgc, Bool.false_eq_true, eq_self_iff_true, if_true, if_false] at hrun
  all_goals (by_cases hgt : (st.opt.train.gan_type == "wgan-gp") = true <;>
    simp only [hgt, Bool.false_eq_true, eq_self_iff_true, if_true, if_false] at hrun)
  all_goals (try (cases hrp : st.random_pt <;> simp only [hrp] at hrun))
  all_goals (try (exact Except.noConfusion hrun))
  all_goals (
    injection hrun with h0
    injection h0 with h1 h2
    subst h1
    subst h2
    refine ⟨by simp, rfl, fun hw => ?_, fun hw rp2 hrp2 => ?_⟩
    · first
        | (rw [hgt] at hw
           exact Bool.noConfusion hw)
        | simp
    · first
        | (exact absurd hw hgt)
        | (simp only [hrp, Option.some.injEq] at hrp2
           subst hrp2
           refine ⟨by simp, by simp, rfl, ?_⟩
           dsimp only
           simp [randomPt_resize_size]
           try (split <;> simp_all)))

/-- Training configuration with pixel and feature L1 losses and WGAN-GP
adversarial loss. -/
def optC3 : Opt :=
  { gpu_ids := none, is_train := true, path := pathC,
    train := { defaultTrainOpt with
      pixel_weight := 1
      feature_weight := 1
      gan_type := "wgan-gp"
      gan_weight := 1
      gp_weigth := 1
      D_update_ratio := some 2 } }

def stC3a : SRGANState := exS (SRGANModel.init optC3 gNetC dNetC fNetC loadNone)

def stC3b : SRGANState := SRGANModel.feed_data stC3a batchC true

def resC3 : SRGANState × List Effect :=
  exP (SRGANModel.optimize_parameters stC3b 3 id id)

/-- C3 witness: the statement instantiated on a concrete WGAN-GP training
model at step 3 (where the generator update is skipped but the
discriminator update still runs). -/
theorem C3_discriminator_update_always_witness :
    Effect.optStep ("D") ∈ resC3.2 ∧
    (resC3.1).netD = some (id ndC1) ∧
    ((stC3b.opt.train.gan_type == "wgan-gp") = false →
        Effect.backward ("D")
          (Loss.add (Loss.gan (TExpr.appD (TExpr.ofTensor varHC)) true)
            (Loss.gan (TExpr.appD (TExpr.detach (TExpr.appG (TExpr.ofTensor varLC))))
              false)) ∈ resC3.2) ∧
    ((stC3b.opt.train.gan_type == "wgan-gp") = true →
        ∀ rp2, stC3b.random_pt = some rp2 →
        Effect.backward ("D")
          (Loss.add
            (Loss.add (Loss.gan (TExpr.appD (TExpr.ofTensor varHC)) true)
              (Loss.gan (TExpr.appD (TExpr.detach (TExpr.appG (TExpr.ofTensor varLC))))
                false))
            (Loss.smul stC3b.l_gp_w (Loss.gp
              (TExpr.withGrad (TExpr.add
                (TExpr.mul (TExpr.randomPt stC3b.rng)
                  (TExpr.detach (TExpr.appG (TExpr.ofTensor varLC))))
                (TExpr.mul (TExpr.sub TExpr.one (TExpr.randomPt stC3b.rng))
                  (TExpr.ofTensor varHC))))
              (TExpr.appD (TExpr.withGrad (TExpr.add
                (TExpr.mul (TExpr.randomPt stC3b.rng)
                  (TExpr.detach (TExpr.appG (TExpr.ofTensor varLC))))
                (TExpr.mul (TExpr.sub TExpr.one (TExpr.randomPt stC3b.rng))
                  (TExpr.ofTensor varHC)))))))) ∈ resC3.2 ∧
        Effect.uniformDraw stC3b.rng ∈ resC3.2 ∧
        (resC3.1).rng = stC3b.rng + 1 ∧
        (resC3.1).random_pt = some { size := varHC.size, draw := some stC3b.rng }) :=
  C3_discriminator_update_always stC3b 3 id id resC3.1 resC3.2 ogC1 odC1 varLC varHC
    varHC ndC1 ("wgan-gp") [] ("l1") ("l1") rfl rfl rfl rfl rfl rfl rfl rfl rfl rfl rfl

def isOkState (e : Except String SRGANState) : Bool :=
  match e with
  | Except.ok _ => true
  | Except.error _ => false

/-- Training configuration whose pixel and feature criterion strings are
unrecognized but whose weights are zero, so the strings are never
inspected. -/
def optC4 : Opt :=
  { gpu_ids := none, is_train := true, path := pathC,
    train := { defaultTrainOpt with
      pixel_weight := 0
      pixel_criterion := "huber"
      feature_weight := 0
      feature_criterion := "huber" } }

/-- Like `optC4` but with a positive pixel weight. -/
def optC4a : Opt :=
  { gpu_ids := none, is_train := true, path := pathC,
    train := { defaultTrainOpt with
      pixel_weight := 1
      pixel_criterion := "huber" } }

/-- Like `optC4` but with a positive feature weight. -/
def optC4b : Opt :=
  { gpu_ids := none, is_train := true, path := pathC,
    train := { defaultTrainOpt with
      feature_weight := 1
      feature_criterion := "huber" } }

/-- C4 (counterexample): constructing in training mode with the pixel (and
feature) criterion string `"huber"`, which is neither `"l1"` nor `"l2"`,
succeeds without raising, because the corresponding loss weights are zero
and the criterion strings are never inspected. -/
theorem C4_unrecognized_criterion_counterexample :
    optC4.is_train = true ∧
    optC4.train.pixel_criterion ≠ "l1" ∧ optC4.train.pixel_criterion ≠ "l2" ∧
    optC4.train.feature_criterion ≠ "l1" ∧ optC4.train.feature_criterion ≠ "l2" ∧
    isOkState (SRGANModel.init optC4 gNetC dNetC fNetC loadNone) = true :=
  ⟨rfl, by decide, by decide, by decide, by decide, rfl⟩

/-- C4 (amended): in training mode, an unrecognized pixel-criterion string
raises a fatal not-implemented error during construction provided the
pixel weight is positive, and likewise for the feature criterion (once the
pixel configuration passes); with non-positive weights the criterion
strings are ignored and construction succeeds. -/
theorem C4_loss_criterion_check (opt : Opt) (g d f : Network)
    (lf : String → List (String × Tensor)) (htrain : opt.is_train = true) :
    (0 < opt.train.pixel_weight → opt.train.pixel_criterion ≠ "l1" →
      opt.train.pixel_criterion ≠ "l2" →
      SRGANModel.init opt g d f lf =
        Except.error ("Loss type [" ++ opt.train.pixel_criterion ++ "] not recognized.")) ∧
    (0 < opt.train.feature_weight → opt.train.feature_criterion ≠ "l1" →
      opt.train.feature_criterion ≠ "l2" →
      (opt.train.pixel_weight ≤ 0 ∨ opt.train.pixel_criterion = "l1" ∨
        opt.train.pixel_criterion = "l2") →
      SRGANModel.init opt g d f lf =
        Except.error ("Loss type [" ++ opt.train.feature_criterion ++ "] not recognized.")) ∧
    (opt.train.pixel_weight ≤ 0 → opt.train.feature_weight ≤ 0 →
      opt.train.lr_scheme = "MultiStepLR" →
      isOkState (SRGANModel.init opt g d f lf) = true) := by
  refine ⟨fun hw h1 h2 => ?_, fun hw h1 h2 hp => ?_, fun hp hf hs => ?_⟩
  · simp [SRGANModel.init, htrain, configLoss, hw, h1, h2]
  · rcases hp with hp | hp | hp
    · simp [SRGANModel.init, htrain, configLoss, hw, h1, h2, not_lt.mpr hp]
    · by_cases hpw : (0 : Int) < opt.train.pixel_weight <;>
        simp [SRGANModel.init, htrain, configLoss, hw, h1, h2, hp, hpw]
    · by_cases hpw : (0 : Int) < opt.train.pixel_weight <;>
        simp [SRGANModel.init, htrain, configLoss, hw, h1, h2, hp, hpw]
  · simp [SRGANModel.init, htrain, configLoss, isOkState, not_lt.mpr hp,
      not_lt.mpr hf, hs]

/-- C4 witness: the amended statement instantiated on concrete
configurations — unrecognized pixel criterion with positive weight,
unrecognized feature criterion with positive weight, and both weights
zero. -/
theorem C4_loss_criterion_check_witness :
    (SRGANModel.init optC4a gNetC dNetC fNetC loadNone =
      Except.error ("Loss type [" ++ optC4a.train.pixel_criterion ++ "] not recognized.")) ∧
    (SRGANModel.init optC4b gNetC dNetC fNetC loadNone =
      Except.error ("Loss type [" ++ optC4b.train.feature_criterion ++ "] not recognized.")) ∧
    isOkState (SRGANModel.init optC4 gNetC dNetC fNetC loadNone) = true :=
  ⟨(C4_loss_criterion_check optC4a gNetC dNetC fNetC loadNone rfl).1
      (by decide) (by decide) (by decide),
   (C4_loss_criterion_check optC4b gNetC dNetC fNetC loadNone rfl).2.1
      (by decide) (by decide) (by decide) (Or.inl (by decide)),
   (C4_loss_criterion_check optC4 gNetC dNetC fNetC loadNone rfl).2.2
      (by decide) (by decide) rfl⟩

/-- C5: constructing in training mode with a learning-rate scheme other
than `"MultiStepLR"` fails (the construction raises); when construction
succeeds the scheme was `"MultiStepLR"` and exactly one multi-step
scheduler (with the configured milestones and decay) is attached to each
of the two optimizers. -/
theorem C5_lr_scheme (opt : Opt) (g d f : Network)
    (lf : String → List (String × Tensor)) (htrain : opt.is_train = true) :
    (opt.train.lr_scheme ≠ "MultiStepLR" →
      isOkState (SRGANModel.init opt g d f lf) = false) ∧
    (∀ st, SRGANModel.init opt g d f lf = Except.ok st →
      opt.train.lr_scheme = "MultiStepLR" ∧
      st.optimizers.length = 2 ∧
      st.schedulers = st.optimizers.map (fun o =>
        ({ optimizer := o, milestones := opt.train.lr_steps,
           gamma := opt.train.lr_gamma, sd := none } : Scheduler))) := by
  refine ⟨fun hs => ?_, fun st hok => ?_⟩
  · cases hp : configLoss opt.train.pixel_weight opt.train.pixel_criterion with
    | error e => simp [SRGANModel.init, htrain, hp, isOkState]
    | ok pr =>
      obtain ⟨cp, lpw⟩ := pr
      cases hf : configLoss opt.train.feature_weight opt.train.feature_criterion with
      | error e => simp [SRGANModel.init, htrain, hp, hf, isOkState]
      | ok fr =>
        obtain ⟨cf, lfw⟩ := fr
        simp [SRGANModel.init, htrain, hp, hf, hs, isOkState]
  · cases hp : configLoss opt.train.pixel_weight opt.train.pixel_criterion with
    | error e => simp [SRGANModel.init, htrain, hp] at hok
    | ok pr =>
      obtain ⟨cp, lpw⟩ := pr
      cases hf : configLoss opt.train.feature_weight opt.train.feature_criterion with
      | error e => simp [SRGANModel.init, htrain, hp, hf] at hok
      | ok fr =>
        obtain ⟨cf, lfw⟩ := fr
        by_cases hms : opt.train.lr_scheme = "MultiStepLR"
        · simp only [SRGANModel.init, htrain, hp, hf, hms, if_true,
            eq_self_iff_true] at hok
          injection hok with h1
          subst h1
          exact ⟨hms, rfl, rfl⟩
        · simp [SRGANModel.init, htrain, hp, hf, hms] at hok

/-- Configuration whose learning-rate scheme is not the supported one. -/
def optC5bad : Opt :=
  { gpu_ids := none, is_train := true, path := pathC,
    train := { defaultTrainOpt with lr_scheme := "StepLR" } }

/-- C5 witness: a bad scheme fails on a concrete configuration; on the
concrete `MultiStepLR` configuration the two optimizers each get one
multi-step scheduler. -/
theorem C5_lr_scheme_witness :
    isOkState (SRGANModel.init optC5bad gNetC dNetC fNetC loadNone) = false ∧
    (optC1.train.lr_scheme = "MultiStepLR" ∧
      stC1a.optimizers.length = 2 ∧
      stC1a.schedulers = stC1a.optimizers.map (fun o =>
        ({ optimizer := o, milestones := optC1.train.lr_steps,
           gamma := optC1.train.lr_gamma, sd := none } : Scheduler))) :=
  ⟨(C5_lr_scheme optC5bad gNetC dNetC fNetC loadNone rfl).1 (by decide),
   (C5_lr_scheme optC1 gNetC dNetC fNetC loadNone rfl).2 stC1a rfl⟩

/-- C6: `resume_training` fails with an assertion error whenever the
optimizer-state (resp. scheduler-state) list length differs from the
model's own list length, and loads the states index by index, in order,
exactly when both lengths match. -/
theorem C6_resume_training_lengths (st : SRGANState) (rs : ResumeState) :
    (rs.optimizers.length ≠ st.optimizers.length →
      BaseModel.resume_training st rs =
        Except.error ("AssertionError: Wrong lengths of optimizers")) ∧
    (rs.optimizers.length = st.optimizers.length →
      rs.schedulers.length ≠ st.schedulers.length →
      BaseModel.resume_training st rs =
        Except.error ("AssertionError: Wrong lengths of schedulers")) ∧
    (rs.optimizers.length = st.optimizers.length →
      rs.schedulers.length = st.schedulers.length →
      ∃ st2, BaseModel.resume_training st rs = Except.ok st2 ∧
        st2.optimizers =
          List.zipWith Optimizer.load_state_dict st.optimizers rs.optimizers ∧
        st2.schedulers =
          List.zipWith Scheduler.load_state_dict st.schedulers rs.schedulers) := by
  refine ⟨fun h1 => ?_, fun h1 h2 => ?_, fun h1 h2 => ?_⟩
  · simp [BaseModel.resume_training, h1]
  · simp [BaseModel.resume_training, h1, h2]
  · refine ⟨{ st with
        optimizers := List.zipWith Optimizer.load_state_dict st.optimizers rs.optimizers
        schedulers := List.zipWith Scheduler.load_state_dict st.schedulers rs.schedulers
        optimizer_G :=
          (List.zipWith Optimizer.load_state_dict st.optimizers rs.optimizers).get? 0
        optimizer_D :=
          (List.zipWith Optimizer.load_state_dict st.optimizers rs.optimizers).get? 1 },
      ?_, rfl, rfl⟩
    simp [BaseModel.resume_training, h1, h2]

def rsGood : ResumeState := { epoch := 1, iter := 5, optimizers := [7, 8], schedulers := [9, 10] }

def rsBadOpt : ResumeState := { epoch := 1, iter := 5, optimizers := [7], schedulers := [9, 10] }

def rsBadSched : ResumeState := { epoch := 1, iter := 5, optimizers := [7, 8], schedulers := [9] }

/-- C6 witness: on the concrete training model (two optimizers, two
schedulers), resume fails for a one-optimizer state and a one-scheduler
state, and loads index by index for a matching state. -/
theorem C6_resume_training_lengths_witness :
    (BaseModel.resume_training stC1a rsBadOpt =
      Except.error ("AssertionError: Wrong lengths of optimizers")) ∧
    (BaseModel.resume_training stC1a rsBadSched =
      Except.error ("AssertionError: Wrong lengths of schedulers")) ∧
    (∃ st2, BaseModel.resume_training stC1a rsGood = Except.ok st2 ∧
      st2.optimizers =
        List.zipWith Optimizer.load_state_dict stC1a.optimizers rsGood.optimizers ∧
      st2.schedulers =
        List.zipWith Scheduler.load_state_dict stC1a.schedulers rsGood.schedulers) :=
  ⟨(C6_resume_training_lengths stC1a rsBadOpt).1 (by decide),
   (C6_resume_training_lengths stC1a rsBadSched).2.1 (by decide) (by decide),
   (C6_resume_training_lengths stC1a rsGood).2.2 (by decide) (by decide)⟩

/-- C7: `test()` switches the generator to evaluation mode, computes the
output from the stored LR input under `torch.no_grad()`, and restores
training mode; the resulting object state differs from the input state
only in the stored output `fake_H` and the generator's mode flag (left in
training mode). -/
theorem C7_test (st : SRGANState) (varL : Tensor) (h : st.var_L = some varL) :
    SRGANModel.test st =
      Except.ok ({ st with
          netG := { st.netG with training := true }
          fake_H := some (TExpr.noGrad (TExpr.appG (TExpr.ofTensor varL))) },
        [Effect.setMode ("G") false, Effect.setMode ("G") true]) := by
  simp [SRGANModel.test, h]

/-- C7 witness: `test` on the concrete fed training model. -/
theorem C7_test_witness :
    SRGANModel.test stC1b =
      Except.ok ({ stC1b with
          netG := { stC1b.netG with training := true }
          fake_H := some (TExpr.noGrad (TExpr.appG (TExpr.ofTensor varLC))) },
        [Effect.setMode ("G") false, Effect.setMode ("G") true]) :=
  C7_test stC1b varLC rfl

/-- C8: `save_network` writes a file named `{iter}_{label}.pth` in the
models directory, whose contents are the network's parameter mapping with
every parameter moved to host (CPU) memory, and returns the network and
the model state unchanged. -/
theorem C8_save_network (st : SRGANState) (net : Network) (label : String)
    (iter : Nat) :
    (BaseModel.save_network st net label iter).1.path =
      st.opt.path.models ++ "/" ++ (toString iter ++ "_" ++ label ++ ".pth") ∧
    (BaseModel.save_network st net label iter).1.contents =
      net.params.map (fun kv => (kv.1, { kv.2 with device := "cpu" })) ∧
    (∀ kv ∈ (BaseModel.save_network st net label iter).1.contents,
      kv.2.device = "cpu") ∧
    (BaseModel.save_network st net label iter).2.1 = net ∧
    (BaseModel.save_network st net label iter).2.2 = st := by
  refine ⟨rfl, rfl, ?_, rfl, rfl⟩
  intro kv hkv
  simp only [BaseModel.save_network, List.mem_map] at hkv
  obtain ⟨x, hx, rfl⟩ := hkv
  rfl

/-- C8 witness: `save_network` on the concrete generator network. -/
theorem C8_save_network_witness :
    (BaseModel.save_network stC1a gNetC ("G") 7).1.path =
      stC1a.opt.path.models ++ "/" ++ (toString 7 ++ "_" ++ "G" ++ ".pth") ∧
    (BaseModel.save_network stC1a gNetC ("G") 7).1.contents =
      gNetC.params.map (fun kv => (kv.1, { kv.2 with device := "cpu" })) ∧
    (∀ kv ∈ (BaseModel.save_network stC1a gNetC ("G") 7).1.contents,
      kv.2.device = "cpu") ∧
    (BaseModel.save_network stC1a gNetC ("G") 7).2.1 = gNetC ∧
    (BaseModel.save_network stC1a gNetC ("G") 7).2.2 = stC1a :=
  C8_save_network stC1a gNetC ("G") 7

/-- C9: `feed_data` with `need_HR` true takes the reference image from the
`"ref"` entry when present and from `"HR"` otherwise, so after the call
the reference used for the discriminator's real branch is always
defined. -/
theorem C9_feed_data_ref (st : SRGANState) (data : BatchData) :
    (∀ r, data.ref = some r →
      (SRGANModel.feed_data st data true).var_ref = some (r.toDev st.device)) ∧
    (data.ref = none →
      (SRGANModel.feed_data st data true).var_ref = some (data.HR.toDev st.device)) ∧
    ((SRGANModel.feed_data st data true).var_ref).isSome = true := by
  refine ⟨fun r hr => ?_, fun hr => ?_, ?_⟩
  · simp [SRGANModel.feed_data, hr]
  · simp [SRGANModel.feed_data, hr]
  · cases hr : data.ref <;> simp [SRGANModel.feed_data, hr]

def batchR : BatchData := { LR := tLR, HR := tHR, ref := some tLR }

/-- C9 witness: with a `"ref"` entry the reference is taken from it; with
none it falls back to `"HR"`; in both cases the reference is defined. -/
theorem C9_feed_data_ref_witness :
    (SRGANModel.feed_data stC1a batchR true).var_ref =
      some (tLR.toDev stC1a.device) ∧
    (SRGANModel.feed_data stC1a batchC true).var_ref =
      some (tHR.toDev stC1a.device) ∧
    ((SRGANModel.feed_data stC1a batchC true).var_ref).isSome = true :=
  ⟨(C9_feed_data_ref stC1a batchR).1 tLR rfl,
   (C9_feed_data_ref stC1a batchC).2.1 rfl,
   (C9_feed_data_ref stC1a batchC).2.2⟩

def isOkSave (e : Except String (SavedFile × SavedFile)) : Bool :=
  match e with
  | Except.ok _ => true
  | Except.error _ => false

/-- C10: a model constructed with `is_train` false has no discriminator,
and `save(iter_step)` on it fails (it unconditionally saves generator and
discriminator); on a model constructed in training mode the discriminator
exists and `save` succeeds. -/
theorem C10_save_requires_discriminator (opt : Opt) (g d f : Network)
    (lf : String → List (String × Tensor)) :
    (opt.is_train = false → ∀ st, SRGANModel.init opt g d f lf = Except.ok st →
      st.netD = none ∧ ∀ i, isOkSave (SRGANModel.save st i) = false) ∧
    (opt.is_train = true → ∀ st, SRGANModel.init opt g d f lf = Except.ok st →
      st.netD.isSome = true ∧ ∀ i, isOkSave (SRGANModel.save st i) = true) := by
  refine ⟨fun htr st hok => ?_, fun htr st hok => ?_⟩
  · simp only [SRGANModel.init, htr, Bool.false_eq_true, if_false] at hok
    injection hok with h1
    subst h1
    exact ⟨rfl, fun i => rfl⟩
  · cases hp : configLoss opt.train.pixel_weight opt.train.pixel_criterion with
    | error e => simp [SRGANModel.init, htr, hp] at hok
    | ok pr =>
      obtain ⟨cp, lpw⟩ := pr
      cases hf : configLoss opt.train.feature_weight opt.train.feature_criterion with
      | error e => simp [SRGANModel.init, htr, hp, hf] at hok
      | ok fr =>
        obtain ⟨cf, lfw⟩ := fr
        by_cases hms : opt.train.lr_scheme = "MultiStepLR"
        · cases hpd : opt.path.pretrain_model_D with
          | none =>
            simp only [SRGANModel.init, htr, hp, hf, hms, hpd, if_true,
              eq_self_iff_true] at hok
            injection hok with h1
            subst h1
            exact ⟨rfl, fun i => rfl⟩
          | some p =>
            simp only [SRGANModel.init, htr, hp, hf, hms, hpd, if_true,
              eq_self_iff_true] at hok
            injection hok with h1
            subst h1
            exact ⟨rfl, fun i => rfl⟩
        · simp [SRGANModel.init, htr, hp, hf, hms] at hok

/-- Inference-mode configuration (no discriminator is built). -/
def optC10 : Opt :=
  { gpu_ids := none, is_train := false, train := defaultTrainOpt, path := pathC }

def stC10 : SRGANState := exS (SRGANModel.init optC10 gNetC dNetC fNetC loadNone)

/-- C10 witness: the concrete inference-mode model has no discriminator
and cannot be saved; the concrete training-mode model has one and saves
successfully. -/
theorem C10_save_requires_discriminator_witness :
    (stC10.netD = none ∧ ∀ i, isOkSave (SRGANModel.save stC10 i) = false) ∧
    (stC1a.netD.isSome = true ∧ ∀ i, isOkSave (SRGANModel.save stC1a i) = true) :=
  ⟨(C10_save_requires_discriminator optC10 gNetC dNetC fNetC loadNone).1 rfl stC10 rfl,
   (C10_save_requires_discriminator optC1 gNetC dNetC fNetC loadNone).2 rfl stC1a rfl⟩
